import Mathlib

/-!
Verification of the aitlas training/checkpointing engine
(`aitlas/base/models.py`, class `BaseModel`) and of
`aitlas/datasets/multiclass_classification.py`, as a shallow embedding.

Model weights, optimizer states and raw tensors are abstracted to `Nat`
stand-ins wherever the engine only moves them around; all control flow,
file-system effects and the two evaluation reshape branches are embedded
faithfully from the source.
-/

set_option autoImplicit false

namespace Aitlas

/-- A checkpoint record as written by `BaseModel.save_model`
(models.py lines 407-417): the Python dict with keys
`epoch`, `state_dict`, `optimizer`, `loss`, `start`, `id`.
The model weight snapshot and the optimizer state are abstracted to `Nat`. -/
structure CheckpointRecord where
  epoch : Nat
  state_dict : Nat
  optimizer : Nat
  loss : Int
  start : Nat
  id : String
deriving DecidableEq

/-- The content of a checkpoint file as read back by `torch.load` in
`BaseModel.load_model` (models.py lines 432-449): either a full checkpoint
dict (it has the key "state_dict") or a bare weights-only state dict.
A bare state dict carries no "optimizer" key. -/
inductive FileContent where
  | full (r : CheckpointRecord)
  | bare (state_dict : Nat)
deriving DecidableEq

/-- The two file paths `BaseModel.save_model` creates (models.py lines
401-420): `timestamped md rid ts` stands for
`<md>/<rid>/checkpoint_<ts>.pth.tar` and `latest md` stands for
`<md>/checkpoint.pth.tar`. -/
inductive FsPath where
  | timestamped (model_directory run_id : String) (ts : Nat)
  | latest (model_directory : String)
deriving DecidableEq

/-- The file system: a finite map from paths to file contents, as an
association list whose head entry wins. -/
abbrev FS := List (FsPath × FileContent)

/-- Read a file. -/
def fsGet : FS → FsPath → Option FileContent
  | [], _ => none
  | (q, c) :: fs, p => if q = p then some c else fsGet fs p

/-- Write (or overwrite) a file. -/
def fsSet (fs : FS) (p : FsPath) (c : FileContent) : FS :=
  (p, c) :: fs.filter (fun e => decide (e.1 ≠ p))

/-- One atomic file-system operation performed by `save_model`: a
`torch.save` to a path, or a `shutil.copyfile` from `src` to `dst` (which
fails when the source does not exist). Directory creation
(`os.makedirs`, models.py lines 395-399) does not change any file content
and is not tracked. -/
inductive FsOp where
  | write (p : FsPath) (c : FileContent)
  | copy (src dst : FsPath)

/-- Run a list of file operations; `none` models an uncaught exception. -/
def runFsOps : FS → List FsOp → Option FS
  | fs, [] => some fs
  | fs, FsOp.write p c :: ops => runFsOps (fsSet fs p c) ops
  | fs, FsOp.copy s d :: ops =>
    match fsGet fs s with
    | some c => runFsOps (fsSet fs d c) ops
    | none => none

/-- Embeds `BaseModel.save_model` (models.py lines 389-420) as its sequence of file
operations: first `torch.save` the timestamped checkpoint, recording
`epoch + 1`, then `copyfile` it onto the "latest" file
`<model_directory>/checkpoint.pth.tar`. `ts` abstracts `current_ts()`. -/
def saveModelOps (model_directory run_id : String) (ts epoch state_dict optimizer : Nat)
    (loss : Int) (start : Nat) : List FsOp :=
  [FsOp.write (FsPath.timestamped model_directory run_id ts)
      (FileContent.full ⟨epoch + 1, state_dict, optimizer, loss, start, run_id⟩),
   FsOp.copy (FsPath.timestamped model_directory run_id ts)
      (FsPath.latest model_directory)]

/-- Embeds `BaseModel.save_model` as a total state transformer on the file map:
write the timestamped checkpoint, then replace the last checkpoint by
copying the just-written file. -/
def save_model (fs : FS) (model_directory run_id : String)
    (ts epoch state_dict optimizer : Nat) (loss : Int) (start : Nat) : FS :=
  let checkpoint := FsPath.timestamped model_directory run_id ts
  let fs1 := fsSet fs checkpoint
    (FileContent.full ⟨epoch + 1, state_dict, optimizer, loss, start, run_id⟩)
  match fsGet fs1 checkpoint with
  | some c => fsSet fs1 (FsPath.latest model_directory) c
  | none => fs1

theorem fsGet_fsSet_self (fs : FS) (p : FsPath) (c : FileContent) :
    fsGet (fsSet fs p c) p = some c := by
  simp [fsGet, fsSet]

theorem fsGet_filter_ne (fs : FS) (p q : FsPath) (h : q ≠ p) :
    fsGet (fs.filter (fun e => decide (e.1 ≠ p))) q = fsGet fs q := by
  induction fs with
  | nil => rfl
  | cons e fs ih =>
    cases e with
    | mk q2 c2 =>
      rw [List.filter_cons]
      by_cases he : q2 = p
      · have hdec : (decide (((q2, c2) : FsPath × FileContent).1 ≠ p)) = false := by
          simp [he]
        rw [hdec]
        simp only [Bool.false_eq_true, if_false]
        rw [ih]
        subst he
        rw [fsGet, if_neg (Ne.symm h)]
      · have hdec : (decide (((q2, c2) : FsPath × FileContent).1 ≠ p)) = true := by
          simp [he]
        rw [hdec]
        simp only [if_true]
        rw [fsGet, fsGet]
        by_cases hq : q2 = q
        · rw [if_pos hq, if_pos hq]
        · rw [if_neg hq, if_neg hq, ih]

theorem fsGet_fsSet_ne (fs : FS) (p q : FsPath) (c : FileContent) (h : q ≠ p) :
    fsGet (fsSet fs p c) q = fsGet fs q := by
  unfold fsSet
  rw [fsGet]
  rw [if_neg (Ne.symm h)]
  exact fsGet_filter_ne fs p q h

theorem save_model_eq (fs : FS) (md rid : String) (ts e sd opt : Nat)
    (loss : Int) (start : Nat) :
    save_model fs md rid ts e sd opt loss start
      = fsSet (fsSet fs (FsPath.timestamped md rid ts)
          (FileContent.full ⟨e + 1, sd, opt, loss, start, rid⟩))
          (FsPath.latest md) (FileContent.full ⟨e + 1, sd, opt, loss, start, rid⟩) := by
  simp only [save_model, fsGet_fsSet_self]

theorem fsGet_save_model_self (fs : FS) (md rid : String) (ts e sd opt : Nat)
    (loss : Int) (start : Nat) :
    fsGet (save_model fs md rid ts e sd opt loss start) (FsPath.timestamped md rid ts)
      = some (FileContent.full ⟨e + 1, sd, opt, loss, start, rid⟩) := by
  rw [save_model_eq]
  rw [fsGet_fsSet_ne _ _ _ _ (by simp)]
  exact fsGet_fsSet_self _ _ _

theorem fsGet_save_model_latest (fs : FS) (md rid : String) (ts e sd opt : Nat)
    (loss : Int) (start : Nat) :
    fsGet (save_model fs md rid ts e sd opt loss start) (FsPath.latest md)
      = some (FileContent.full ⟨e + 1, sd, opt, loss, start, rid⟩) := by
  rw [save_model_eq]
  exact fsGet_fsSet_self _ _ _

/-- C1: `save_model` writes the timestamped checkpoint under
`<model_directory>/<run_id>/` first, and only then produces the "latest"
file `<model_directory>/checkpoint.pth.tar` by copying it: after a
completed save the latest file equals the content of the just-written
timestamped checkpoint, and an interruption before the copy step — i.e.
stopping after any strict prefix of the operation sequence — leaves the
previous latest file intact. -/
theorem save_model_latest_atomic (fs : FS) (md rid : String) (ts e sd opt : Nat)
    (loss : Int) (start : Nat) :
    saveModelOps md rid ts e sd opt loss start
      = [FsOp.write (FsPath.timestamped md rid ts)
            (FileContent.full ⟨e + 1, sd, opt, loss, start, rid⟩),
         FsOp.copy (FsPath.timestamped md rid ts) (FsPath.latest md)]
    ∧ runFsOps fs (saveModelOps md rid ts e sd opt loss start)
        = some (save_model fs md rid ts e sd opt loss start)
    ∧ fsGet (save_model fs md rid ts e sd opt loss start) (FsPath.timestamped md rid ts)
        = some (FileContent.full ⟨e + 1, sd, opt, loss, start, rid⟩)
    ∧ fsGet (save_model fs md rid ts e sd opt loss start) (FsPath.latest md)
        = some (FileContent.full ⟨e + 1, sd, opt, loss, start, rid⟩)
    ∧ runFsOps fs ((saveModelOps md rid ts e sd opt loss start).take 0) = some fs
    ∧ runFsOps fs ((saveModelOps md rid ts e sd opt loss start).take 1)
        = some (fsSet fs (FsPath.timestamped md rid ts)
            (FileContent.full ⟨e + 1, sd, opt, loss, start, rid⟩))
    ∧ fsGet (fsSet fs (FsPath.timestamped md rid ts)
          (FileContent.full ⟨e + 1, sd, opt, loss, start, rid⟩)) (FsPath.latest md)
        = fsGet fs (FsPath.latest md) := by
  refine ⟨rfl, ?_, fsGet_save_model_self fs md rid ts e sd opt loss start,
    fsGet_save_model_latest fs md rid ts e sd opt loss start, rfl, rfl, ?_⟩
  · simp only [saveModelOps, runFsOps, fsGet_fsSet_self, save_model_eq]
  · exact fsGet_fsSet_ne _ _ _ _ (by simp)

/-- The epoch indices visited by the training loop
`for epoch in range(start_epoch, epochs)` of `BaseModel.fit`
(models.py line 87). -/
def fitEpochs (start_epoch epochs : Nat) : List Nat :=
  List.range' start_epoch (epochs - start_epoch)

/-- The checkpoint-writing effect of the epoch loop of `BaseModel.fit`
(models.py lines 87-134): at every epoch with `epoch % save_epochs == 0`
the engine calls `save_model` with the current epoch index and that
epoch's training loss. `tsOf e` abstracts the wall clock `current_ts()`
at the save made in epoch `e`, `lossOf e` abstracts the loss returned by
`train_epoch` for epoch `e`, and `sd`/`opt` abstract the model and
optimizer state. `remaining` counts the loop iterations left,
`epochs - epoch`. -/
def fitLoop (md rid : String) (save_epochs : Nat) (tsOf : Nat → Nat)
    (lossOf : Nat → Int) (sd opt start : Nat) : FS → Nat → Nat → FS
  | fs, _, 0 => fs
  | fs, epoch, Nat.succ remaining =>
    let fs2 := if epoch % save_epochs == 0 then
        save_model fs md rid (tsOf epoch) epoch sd opt (lossOf epoch) start
      else fs
    fitLoop md rid save_epochs tsOf lossOf sd opt start fs2 (epoch + 1) remaining

/-- The checkpoint-writing effect of one complete `BaseModel.fit` call
(models.py lines 52-141): run the epoch loop from `start_epoch` to
`epochs`, then `save_model(model_directory, epochs, ...)` unconditionally
at the end (line 139), at timestamp `tsFinal`, with the loss variable left
by the last trained epoch. -/
def fit (fs : FS) (md rid : String) (epochs save_epochs start_epoch : Nat)
    (tsOf : Nat → Nat) (tsFinal : Nat) (lossOf : Nat → Int)
    (sd opt start : Nat) : FS :=
  let fs2 := fitLoop md rid save_epochs tsOf lossOf sd opt start fs
    start_epoch (epochs - start_epoch)
  save_model fs2 md rid tsFinal epochs sd opt (lossOf (epochs - 1)) start

/-- The number of timestamped checkpoint files under
`<model_directory>/<run_id>/`. -/
def countRunFiles (md rid : String) (fs : FS) : Nat :=
  (fs.filter (fun e => match e.1 with
    | FsPath.timestamped a b _ => decide (a = md ∧ b = rid)
    | FsPath.latest _ => false)).length

/-- C2 counterexample: A fresh `fit` with `epochs = 3` and
`save_epochs = 1` (saves in the loop at epochs 0, 1, 2, plus the
unconditional final save at epoch index 3, models.py line 139) leaves four
timestamped checkpoint files under the run directory, not three. -/
theorem fit_three_epochs_not_three_files :
    countRunFiles "m" "r"
        (fit [] "m" "r" 3 1 0 (fun e => e) 100 (fun _ => 0) 0 0 0) = 4
    ∧ countRunFiles "m" "r"
        (fit [] "m" "r" 3 1 0 (fun e => e) 100 (fun _ => 0) 0 0 0) ≠ 3 := by
  decide

/-- C2 amended: A fresh `fit` with `epochs = 3`, `save_epochs = 1`
whose four saves get pairwise distinct timestamps produces exactly four
timestamped checkpoint files — three from the loop at epochs 0, 1, 2 and
one from the unconditional final save at epoch index 3 — plus one "latest"
file whose content equals the 4th (most recent) timestamped file, a full
record with stored epoch `3 + 1 = 4`. -/
theorem fit_three_epochs_four_files (md rid : String) (tsOf : Nat → Nat)
    (tsFinal : Nat) (lossOf : Nat → Int) (sd opt start : Nat)
    (h01 : tsOf 0 ≠ tsOf 1) (h02 : tsOf 0 ≠ tsOf 2) (h12 : tsOf 1 ≠ tsOf 2)
    (hf0 : tsFinal ≠ tsOf 0) (hf1 : tsFinal ≠ tsOf 1) (hf2 : tsFinal ≠ tsOf 2) :
    countRunFiles md rid (fit [] md rid 3 1 0 tsOf tsFinal lossOf sd opt start) = 4
    ∧ fsGet (fit [] md rid 3 1 0 tsOf tsFinal lossOf sd opt start) (FsPath.latest md)
        = some (FileContent.full ⟨4, sd, opt, lossOf 2, start, rid⟩)
    ∧ fsGet (fit [] md rid 3 1 0 tsOf tsFinal lossOf sd opt start)
          (FsPath.timestamped md rid tsFinal)
        = some (FileContent.full ⟨4, sd, opt, lossOf 2, start, rid⟩) := by
  refine ⟨?_, ?_, ?_⟩ <;>
    simp [fit, fitLoop, save_model_eq, fsSet, fsGet, countRunFiles,
      h01, h02, h12, hf0, hf1, hf2,
      Ne.symm h01, Ne.symm h02, Ne.symm h12, Ne.symm hf0, Ne.symm hf1, Ne.symm hf2]

/-- Witness for C2 amended, at concrete timestamps 0, 1, 2, 3. -/
theorem fit_three_epochs_four_files_witness :
    countRunFiles "m" "r"
        (fit [] "m" "r" 3 1 0 (fun e => e) 3 (fun _ => 0) 7 8 9) = 4
    ∧ fsGet (fit [] "m" "r" 3 1 0 (fun e => e) 3 (fun _ => 0) 7 8 9)
          (FsPath.latest "m")
        = some (FileContent.full ⟨4, 7, 8, 0, 9, "r"⟩)
    ∧ fsGet (fit [] "m" "r" 3 1 0 (fun e => e) 3 (fun _ => 0) 7 8 9)
          (FsPath.timestamped "m" "r" 3)
        = some (FileContent.full ⟨4, 7, 8, 0, 9, "r"⟩) :=
  fit_three_epochs_four_files "m" "r" (fun e => e) 3 (fun _ => 0) 7 8 9
    (by decide) (by decide) (by decide) (by decide) (by decide) (by decide)

/-- The result of `BaseModel.load_model` (models.py lines 428-457): the
weights loaded into the model, the optimizer state loaded into the supplied
optimizer handle (if any), and the returned tuple
`(start_epoch, loss, start, run_id)`. -/
structure LoadResult where
  state_dict : Nat
  optimizer_state : Option Nat
  start_epoch : Nat
  loss : Int
  start : Nat
  run_id : String
deriving DecidableEq

/-- Embeds `BaseModel.load_model` (models.py lines 428-457). `optimizer` records
whether an optimizer handle was supplied. A missing file raises
`ValueError` (line 457). A full checkpoint (the loaded dict has the key
"state_dict") fills the metadata from the record; a bare weights-only
state dict yields the defaults `(1, 0, 0, "")` (lines 442-449). The
access `checkpoint["optimizer"]` is performed whenever an optimizer is
supplied (lines 451-452) — also for a bare state dict, where the key is
absent and a `KeyError` is raised. -/
def load_model (fs : FS) (file_path : FsPath) (optimizer : Bool) :
    Except String LoadResult :=
  match fsGet fs file_path with
  | none => Except.error "ValueError: No checkpoint found"
  | some checkpoint =>
    let loaded : LoadResult :=
      match checkpoint with
      | FileContent.full r =>
        { state_dict := r.state_dict, optimizer_state := none,
          start_epoch := r.epoch, loss := r.loss, start := r.start, run_id := r.id }
      | FileContent.bare sd =>
        { state_dict := sd, optimizer_state := none,
          start_epoch := 1, loss := 0, start := 0, run_id := "" }
    if optimizer then
      match checkpoint with
      | FileContent.full r =>
        Except.ok { loaded with optimizer_state := some r.optimizer }
      | FileContent.bare _ => Except.error "KeyError: optimizer"
    else
      Except.ok loaded

/-- C3: `save_model` called with epoch `e` stores `e + 1` in the
checkpoint record; `load_model` on that checkpoint returns
`start_epoch = e + 1`; and a `fit` invocation resuming from it runs its
epoch loop `range(start_epoch, epochs)` starting at `e + 1`, the epoch
after the last completed one. -/
theorem save_load_resume_epoch (fs : FS) (md rid : String) (ts e sd opt : Nat)
    (loss : Int) (start epochs : Nat) (h : e + 1 < epochs) :
    fsGet (save_model fs md rid ts e sd opt loss start)
        (FsPath.timestamped md rid ts)
      = some (FileContent.full ⟨e + 1, sd, opt, loss, start, rid⟩)
    ∧ load_model (save_model fs md rid ts e sd opt loss start)
        (FsPath.timestamped md rid ts) true
      = Except.ok ⟨sd, some opt, e + 1, loss, start, rid⟩
    ∧ (fitEpochs (e + 1) epochs).head? = some (e + 1) := by
  refine ⟨fsGet_save_model_self fs md rid ts e sd opt loss start, ?_, ?_⟩
  · rw [load_model, fsGet_save_model_self fs md rid ts e sd opt loss start]
    rfl
  · obtain ⟨k, hk⟩ : ∃ k, epochs - (e + 1) = k + 1 :=
      ⟨epochs - (e + 1) - 1, by omega⟩
    rw [fitEpochs, hk]
    rfl

/-- Witness for C3: saving at epoch 4 and resuming with 10 total
epochs restarts the loop at epoch 5. -/
theorem save_load_resume_epoch_witness :
    fsGet (save_model [] "m" "r" 17 4 1 2 3 5) (FsPath.timestamped "m" "r" 17)
      = some (FileContent.full ⟨5, 1, 2, 3, 5, "r"⟩)
    ∧ load_model (save_model [] "m" "r" 17 4 1 2 3 5)
        (FsPath.timestamped "m" "r" 17) true
      = Except.ok ⟨1, some 2, 5, 3, 5, "r"⟩
    ∧ (fitEpochs 5 10).head? = some 5 :=
  save_load_resume_epoch [] "m" "r" 17 4 1 2 3 5 10 (by decide)

/-- C4 counterexample: Loading a weights-only checkpoint (a bare state
dict) while supplying an optimizer handle does not succeed: the
unconditional access `checkpoint["optimizer"]` (models.py line 452) raises
a `KeyError`, because the bare state dict has no such key. -/
theorem load_weights_only_with_optimizer_fails :
    load_model [(FsPath.latest "m", FileContent.bare 7)] (FsPath.latest "m") true
      = Except.error "KeyError: optimizer" := by
  rfl

/-- C4 amended: For an existing checkpoint file: when the checkpoint
is full, supplying an optimizer restores its optimizer state entry; when
the checkpoint is weights-only, supplying an optimizer fails with a
`KeyError` (the optimizer access is unconditional, not guarded on the
entry being present), while loading it without an optimizer succeeds,
restores only the model weights and returns the defaults
`epoch = 1`, `loss = 0`, `start = 0`, `run_id = ""`. -/
theorem load_model_optimizer_restore (fs : FS) (p : FsPath) :
    (∀ r, fsGet fs p = some (FileContent.full r) →
      load_model fs p true
        = Except.ok ⟨r.state_dict, some r.optimizer, r.epoch, r.loss, r.start, r.id⟩)
    ∧ (∀ sd, fsGet fs p = some (FileContent.bare sd) →
      load_model fs p true = Except.error "KeyError: optimizer")
    ∧ (∀ sd, fsGet fs p = some (FileContent.bare sd) →
      load_model fs p false = Except.ok ⟨sd, none, 1, 0, 0, ""⟩) := by
  refine ⟨fun r hr => ?_, fun sd hsd => ?_, fun sd hsd => ?_⟩
  · rw [load_model, hr]
    rfl
  · rw [load_model, hsd]
    rfl
  · rw [load_model, hsd]
    rfl

/-- Witness for C4 amended: a weights-only checkpoint loaded without
an optimizer yields the defaults. -/
theorem load_model_optimizer_restore_witness :
    load_model [(FsPath.latest "m", FileContent.bare 7)] (FsPath.latest "m") false
      = Except.ok ⟨7, none, 1, 0, 0, ""⟩ :=
  (load_model_optimizer_restore
      [(FsPath.latest "m", FileContent.bare 7)] (FsPath.latest "m")).2.2 7 (by decide)

/-- The state of `BaseModel.fit` once initialization finished: the epoch
counter, the start timestamp, the run identifier, and the directory
`os.path.join(model_directory, run_id)` the metric-stream sink
(`SummaryWriter`) is opened at. -/
structure FitStart where
  start_epoch : Nat
  start : Nat
  run_id : String
  writer_dir : String × String
deriving DecidableEq

/-- The initialization phase of `BaseModel.fit` (models.py lines 64-79):
`start_epoch = 0` and `start = current_ts()` (abstracted as `now`); when
`resume_model` is given, `load_model` overwrites epoch counter, start time
and run id; then the metric sink is opened at
`os.path.join(model_directory, run_id)` — `os.path.join` raises a
`TypeError` when `run_id` is still `None`, and `fit` contains no code that
generates a run id. -/
def fit_init (fs : FS) (resume_model : Option FsPath) (run_id : Option String)
    (now : Nat) (model_directory : String) : Except String FitStart :=
  match resume_model with
  | some p =>
    match load_model fs p true with
    | Except.error e => Except.error e
    | Except.ok r =>
      Except.ok ⟨r.start_epoch, r.start, r.run_id, (model_directory, r.run_id)⟩
  | none =>
    match run_id with
    | some rid => Except.ok ⟨0, now, rid, (model_directory, rid)⟩
    | none => Except.error "TypeError: join() argument must be str, not NoneType"

/-- C7 counterexample: A `fit` invocation with no `resume_model` and no
caller-supplied `run_id` does not proceed with a generated run id: `run_id`
stays `None` and opening the metric sink at
`os.path.join(model_directory, run_id)` (models.py line 79) raises a
`TypeError`. -/
theorem fit_fresh_no_run_id_fails :
    fit_init [] none none 5 "m"
      = Except.error "TypeError: join() argument must be str, not NoneType" := by
  rfl

/-- C7 amended: With no `resume_model`, `fit` starts from epoch 0
with a new start time, but it never generates a run id: with a
caller-supplied `run_id` it proceeds under that id, which names both the
metric-stream sink directory `os.path.join(model_directory, run_id)` and
the run-scoped checkpoint location `<model_directory>/<run_id>/...`; with
no caller-supplied `run_id`, building the sink path fails with a
`TypeError`. -/
theorem fit_fresh_start (fs : FS) (now : Nat) (md rid : String) :
    fit_init fs none (some rid) now md = Except.ok ⟨0, now, rid, (md, rid)⟩
    ∧ fit_init fs none none now md
        = Except.error "TypeError: join() argument must be str, not NoneType"
    ∧ (∀ ts e sd opt start, ∀ loss : Int,
        fsGet (save_model fs md rid ts e sd opt loss start)
            (FsPath.timestamped md rid ts)
          = some (FileContent.full ⟨e + 1, sd, opt, loss, start, rid⟩)) :=
  ⟨rfl, rfl, fun ts e sd opt start loss =>
    fsGet_save_model_self fs md rid ts e sd opt loss start⟩

/-- The segmentation reshape in `BaseModel.evaluate_model`
(models.py lines 245-252): `predicted.T.reshape(B*H*W, C)` for a
predictions tensor of shape `(B, C, H, W)`; the same transformation is
applied to `labels`. `Tensor.T` reverses the dimension order, giving a
view of shape `(W, H, C, B)`, and `reshape` reads that view in row-major
order, so entry `(r, j)` of the resulting matrix is the element at flat
position `r * C + j`, whose `(W, H, C, B)` coordinates are recovered by
successive division — the fastest-varying axis is `b`, then `c`, then `h`,
then `w`. -/
def tReshape {α : Type} (B C H W : Nat) (t : Nat → Nat → Nat → Nat → α)
    (r j : Nat) : α :=
  let p := r * C + j
  t (p % B) (p / B % C) (p / B / C % H) (p / B / C / H)

/-- A concrete predictions tensor of shape `(2, 2, 1, 1)`: batch element
`b` has the per-class vector `(10 b, 10 b + 1)` at its single pixel. -/
def segTensorExample : Nat → Nat → Nat → Nat → Nat :=
  fun b c _ _ => 10 * b + c

/-- C5 counterexample: For a predictions tensor of shape
`(batch, classes, height, width) = (2, 2, 1, 1)`, row 0 of
`predicted.T.reshape(B*H*W, C)` is `(t 0 0 0 0, t 1 0 0 0)` — it mixes the
two batch elements at class 0 — and equals no pixel's per-class vector of
the original tensor. -/
theorem tReshape_row_not_pixel_vector :
    tReshape 2 2 1 1 segTensorExample 0 0 = segTensorExample 0 0 0 0
    ∧ tReshape 2 2 1 1 segTensorExample 0 1 = segTensorExample 1 0 0 0
    ∧ ¬ ∃ b : Fin 2, ∃ hh : Fin 1, ∃ w : Fin 1, ∀ j : Fin 2,
        tReshape 2 2 1 1 segTensorExample 0 j.val
          = segTensorExample b.val j.val hh.val w.val := by
  decide

/-- C5 amended: The reshape produces a matrix of shape
`(batch*height*width, num_classes)`; when the batch size is 1 each row is
exactly one pixel's per-class vector of the original tensor (row `r` holds
the pixel at height `r % H`, width `r / H`), but for batch size greater
than 1 the rows interleave values across batch elements and are not
per-pixel class vectors in general. -/
theorem tReshape_batch_one_pixel_rows {α : Type} (C H W : Nat)
    (t : Nat → Nat → Nat → Nat → α) (r j : Nat) (hj : j < C) (hr : r < H * W) :
    tReshape 1 C H W t r j = t 0 j (r % H) (r / H)
    ∧ r % H < H ∧ r / H < W := by
  have hC : 0 < C := Nat.lt_of_le_of_lt (Nat.zero_le j) hj
  have hH : 0 < H := by
    rcases Nat.eq_zero_or_pos H with h0 | h0
    · rw [h0, Nat.zero_mul] at hr
      omega
    · exact h0
  have h3 : (r * C + j) % C = j := by
    rw [Nat.mul_comm, Nat.mul_add_mod, Nat.mod_eq_of_lt hj]
  have h4 : (r * C + j) / C = r := by
    rw [Nat.mul_comm, Nat.mul_add_div hC, Nat.div_eq_of_lt hj, Nat.add_zero]
  refine ⟨?_, Nat.mod_lt _ hH, ?_⟩
  · simp only [tReshape, Nat.div_one, Nat.mod_one]
    rw [h3, h4]
  · rw [Nat.div_lt_iff_lt_mul hH]
    exact Nat.lt_of_lt_of_le hr (Nat.le_of_eq (Nat.mul_comm H W))

/-- Witness for C5 amended: batch 1, two classes, a 2 by 3 image;
row 4, class column 1 is the class-1 entry of the pixel at height 0,
width 2. -/
theorem tReshape_batch_one_pixel_rows_witness :
    tReshape 1 2 2 3 (fun b c hh w => 1000 * b + 100 * c + 10 * hh + w) 4 1
      = (fun (b c hh w : Nat) => 1000 * b + 100 * c + 10 * hh + w) 0 1 (4 % 2) (4 / 2)
    ∧ 4 % 2 < 2 ∧ 4 / 2 < 3 :=
  tReshape_batch_one_pixel_rows 2 2 3
    (fun b c hh w => 1000 * b + 100 * c + 10 * hh + w) 4 1 (by decide) (by decide)

/-- The one-hot expansion in `BaseModel.evaluate_model`
(models.py lines 254-260): when the labels are a flat rank-1 vector, the
engine builds `one_hot = torch.zeros(labels.size(0), num_classes)` and
scatters `one_hot[torch.arange(labels.size(0)), predicted] = 1`.
`predicted` is the rank-1 vector of predicted class indices, `n` the
number of samples in the batch. The scatter indexing fails when some
predicted index is out of range (`none`); otherwise row `s` is the
all-zero row of width `num_classes` with position `predicted s` set
to 1. -/
def oneHotExpand (n num_classes : Nat) (predicted : Nat → Nat) :
    Option (List (List Nat)) :=
  if (List.range n).all (fun s => decide (predicted s < num_classes)) then
    some ((List.range n).map
      (fun s => (List.replicate num_classes 0).set (predicted s) 1))
  else none

/-- C6: When evaluation sees a flat rank-1 label vector, the predicted
class indices are expanded into a one-hot matrix with `num_classes`
columns: the expansion succeeds, has one row per sample, and row `s` holds
a 1 exactly in the column of sample `s`'s predicted class (so every entry
at column `j` is 1 when `j = predicted s` and 0 otherwise). -/
theorem oneHotExpand_rows (n C : Nat) (predicted : Nat → Nat) (s j : Nat)
    (hs : s < n) (hj : j < C) (hp : ∀ i, i < n → predicted i < C) :
    ∃ m, oneHotExpand n C predicted = some m
      ∧ m.length = n
      ∧ (m.getD s []).getD j 0 = (if predicted s = j then 1 else 0) := by
  have hall : (List.range n).all (fun i => decide (predicted i < C)) = true := by
    simp only [List.all_eq_true, List.mem_range, decide_eq_true_eq]
    exact fun i hi => hp i hi
  refine ⟨_, by rw [oneHotExpand, if_pos hall], by simp, ?_⟩
  simp only [List.getD_eq_getElem?_getD]
  rw [List.getElem?_map, List.getElem?_range hs]
  simp only [Option.map_some', Option.getD_some]
  rw [List.getElem?_set]
  by_cases hps : predicted s = j
  · rw [if_pos hps, if_pos (by simpa [List.length_replicate] using hp s hs)]
    simp [hps]
  · rw [if_neg hps, List.getElem?_replicate, if_pos hj]
    simp [hps]

/-- Witness for C6: 3 samples, 3 classes, predictions
`s ↦ (s + 1) % 3`; row 1, column 2 holds a 1 since sample 1's predicted
class is 2. -/
theorem oneHotExpand_rows_witness :
    ∃ m, oneHotExpand 3 3 (fun i => (i + 1) % 3) = some m
      ∧ m.length = 3
      ∧ (m.getD 1 []).getD 2 0 = (if (1 + 1) % 3 = 2 then 1 else 0) :=
  oneHotExpand_rows 3 3 (fun i => (i + 1) % 3) 1 2
    (by decide) (by decide) (by decide)

/-- Embeds the `BaseModel.load_criterion` default body (models.py lines 463-465):
raises `NotImplementedError` with this message. Criterion, optimizer and
scheduler objects are abstracted to `Nat`. -/
def load_criterion_base : Except String Nat :=
  Except.error "Please implement `load_criterion` for your model. "

/-- Embeds the `BaseModel.load_optimizer` default body (models.py lines 459-461):
raises `NotImplementedError` with this message. -/
def load_optimizer_base : Except String Nat :=
  Except.error "Please implement `load_optimizer` for your model. "

/-- Embeds the `BaseModel.load_lr_scheduler` default body (models.py lines 467-470):
raises `NotImplementedError` with this message. -/
def load_lr_scheduler_base : Except String Nat :=
  Except.error "Please implement `load_lr_scheduler` for your model. "

/-- Embeds `BaseModel.prepare` (models.py lines 44-50): loads the criterion, the
optimizer and the lr scheduler, in that order; a Python exception raised
by any of them aborts `prepare`, modelled by `Except`. -/
def prepare (load_criterion load_optimizer load_lr_scheduler : Except String Nat) :
    Except String (Nat × Nat × Nat) := do
  let criterion ← load_criterion
  let optimizer ← load_optimizer
  let lr_scheduler ← load_lr_scheduler
  return (criterion, optimizer, lr_scheduler)

/-- Embeds the `BaseModel.get_predicted` default body (models.py lines 355-359):
raises `NotImplementedError` with this message. `Out` stands for the raw
model output of one batch; a decoded result is the pair of per-sample
probability entries and per-sample prediction entries. -/
def get_predicted_base {Out P Q : Type} : Out → Except String (List P × List Q) :=
  fun _ => Except.error "Please implement `get_predicted` for your model. "

/-- Embeds `BaseModel.predict` (models.py lines 271-293): iterate the batches
produced by `predict_output_per_batch` (models.py lines 327-346, each
batch abstracted as the raw model output paired with the list of
per-sample label entries), decode each output with `get_predicted`, and
append each batch's per-sample entries to the three accumulators,
returning `(y_true, y_pred, y_pred_probs)`. -/
def predict {Out P Q L : Type}
    (get_predicted : Out → Except String (List P × List Q)) :
    List (Out × List L) → Except String (List L × List Q × List P)
  | [] => Except.ok ([], [], [])
  | (outputs, labels) :: rest =>
    match get_predicted outputs with
    | Except.error e => Except.error e
    | Except.ok (predicted_probs, predicted) =>
      match predict get_predicted rest with
      | Except.error e => Except.error e
      | Except.ok (y_true, y_pred, y_pred_probs) =>
        Except.ok (labels ++ y_true, predicted ++ y_pred,
          predicted_probs ++ y_pred_probs)

/-- C8: Every omitted required extension point fails at its first
invocation with an explicit not-implemented error naming the missing
capability: `prepare` fails on a missing `load_criterion`, a missing
`load_optimizer`, or a missing `load_lr_scheduler` (in source order), and
prediction (hence also evaluation, which decodes through the same method)
fails on a missing `get_predicted` as soon as one batch is processed;
none of them is silently defaulted. -/
theorem missing_extension_point_fails :
    prepare load_criterion_base load_optimizer_base load_lr_scheduler_base
      = Except.error "Please implement `load_criterion` for your model. "
    ∧ (∀ c : Nat, prepare (Except.ok c) load_optimizer_base load_lr_scheduler_base
        = Except.error "Please implement `load_optimizer` for your model. ")
    ∧ (∀ c o : Nat, prepare (Except.ok c) (Except.ok o) load_lr_scheduler_base
        = Except.error "Please implement `load_lr_scheduler` for your model. ")
    ∧ (∀ (out : Nat) (labels : List Nat) (rest : List (Nat × List Nat)),
        predict (@get_predicted_base Nat Nat Nat) ((out, labels) :: rest)
          = Except.error "Please implement `get_predicted` for your model. ") :=
  ⟨rfl, fun _ => rfl, fun _ _ => rfl, fun _ _ _ => rfl⟩

/-- C9: When `get_predicted` decodes every batch into per-sample lists
matching the batch's sample count, `predict` succeeds and returns three
lists of equal length — one entry per sample — where `y_true` is exactly
the concatenation of the batches' label entries in batch order, and the
common length is the total sample count over all batches. -/
theorem predict_per_sample {Out P Q L : Type}
    (get_predicted : Out → Except String (List P × List Q))
    (batches : List (Out × List L))
    (h : ∀ b ∈ batches, ∃ probs preds,
        get_predicted b.1 = Except.ok (probs, preds)
        ∧ probs.length = b.2.length ∧ preds.length = b.2.length) :
    ∃ y_true y_pred y_pred_probs,
      predict get_predicted batches = Except.ok (y_true, y_pred, y_pred_probs)
      ∧ y_true = (batches.map Prod.snd).flatten
      ∧ y_pred.length = y_true.length
      ∧ y_pred_probs.length = y_true.length
      ∧ y_true.length = (batches.map (fun b => b.2.length)).sum := by
  induction batches with
  | nil => exact ⟨[], [], [], rfl, rfl, rfl, rfl, rfl⟩
  | cons b rest ih =>
    obtain ⟨probs, preds, hgp, hlp, hlq⟩ := h b (List.mem_cons_self _ _)
    obtain ⟨yt, yp, ypp, hrec, hjoin, h1, h2, h3⟩ :=
      ih (fun x hx => h x (List.mem_cons_of_mem _ hx))
    obtain ⟨out, labels⟩ := b
    refine ⟨labels ++ yt, preds ++ yp, probs ++ ypp, ?_, ?_, ?_, ?_, ?_⟩
    · simp only [predict, hgp, hrec]
    · simp [hjoin]
    · simp only [List.length_append]
      simp only at hlq
      omega
    · simp only [List.length_append]
      simp only at hlp
      omega
    · simp only [List.length_append, List.map_cons, List.sum_cons]
      omega

/-- Witness for C9: two single-sample batches with a decoder that
produces one probability entry and one prediction entry per sample. -/
theorem predict_per_sample_witness :
    ∃ y_true y_pred y_pred_probs,
      predict (fun o : Nat => (Except.ok ([o], [o + 1])
          : Except String (List Nat × List Nat)))
          [(5, [9]), (6, [7])]
        = Except.ok (y_true, y_pred, y_pred_probs)
      ∧ y_true = ([((5 : Nat), [(9 : Nat)]), (6, [7])].map Prod.snd).flatten
      ∧ y_pred.length = y_true.length
      ∧ y_pred_probs.length = y_true.length
      ∧ y_true.length
          = ([((5 : Nat), [(9 : Nat)]), (6, [7])].map
              (fun b => b.2.length)).sum := by
  refine predict_per_sample _ _ ?_
  intro b hb
  simp only [List.mem_cons, List.not_mem_nil, or_false] at hb
  rcases hb with rfl | rfl
  · exact ⟨[5], [6], rfl, rfl, rfl⟩
  · exact ⟨[6], [7], rfl, rfl, rfl⟩

/-- Python's `list.index`, as used by `self.labels.index(row[1])` in
`MultiClassClassificationDataset.load_dataset`
(multiclass_classification.py line 60): the index of the first occurrence
of the value, or a `ValueError` when the value is absent. -/
def labelIndex : List String → String → Except String Nat
  | [], _ => Except.error "ValueError: label is not in list"
  | l :: ls, x =>
    if l = x then Except.ok 0 else (labelIndex ls x).map (fun i => i + 1)

/-- Embeds `MultiClassClassificationDataset.load_dataset`
(multiclass_classification.py lines 49-62): raise a `ValueError` when the
labels list is falsy (`None` or empty) — before the CSV file is opened;
otherwise, when a file path was given, turn each CSV row
`(image path, label string)` into the item
`(image path, labels.index(label string))`. `csvRows` stands for the
parsed rows of the CSV file at `file_path`, `none` when `file_path` is
falsy. -/
def load_dataset (labels : Option (List String))
    (csvRows : Option (List (String × String))) :
    Except String (List (String × Nat)) :=
  if (labels.getD []).isEmpty then
    Except.error "You need to provide the list of labels for the dataset"
  else
    match csvRows with
    | none => Except.ok []
    | some rows =>
      rows.mapM (fun row =>
        (labelIndex (labels.getD []) row.2).map (fun i => (row.1, i)))

theorem labelIndex_mem (ls : List String) (x : String) (hx : x ∈ ls) :
    labelIndex ls x = Except.ok (ls.indexOf x) := by
  induction ls with
  | nil => cases hx
  | cons l ls ih =>
    by_cases h : l = x
    · subst h
      rw [labelIndex, if_pos rfl, List.indexOf_cons_self]
    · have hx2 : x ∈ ls := by
        rcases List.mem_cons.mp hx with h1 | h1
        · exact absurd h1.symm h
        · exact h1
      rw [labelIndex, if_neg h, ih hx2,
        List.indexOf_cons_ne ls (fun he => h he), Except.map]

theorem load_rows_ok (ls : List String) (rows : List (String × String))
    (hrows : ∀ r ∈ rows, r.2 ∈ ls) :
    rows.mapM (fun row => (labelIndex ls row.2).map (fun i => (row.1, i)))
      = Except.ok (rows.map (fun r => (r.1, ls.indexOf r.2))) := by
  induction rows with
  | nil => rfl
  | cons r rs ih =>
    have h1 := labelIndex_mem ls r.2 (hrows r (List.mem_cons_self _ _))
    have h2 := ih (fun x hx => hrows x (List.mem_cons_of_mem _ hx))
    rw [List.mapM_cons, h1, h2]
    rfl

/-- C10: Constructing a `MultiClassClassificationDataset` with an
empty or missing labels list fails with a `ValueError` regardless of the
CSV content — i.e. before any CSV file is read; with a non-empty labels
list, each loaded item's target is the index of the row's label string
within the labels list. -/
theorem load_dataset_label_indices (ls : List String)
    (rows : List (String × String)) (hls : ls ≠ [])
    (hrows : ∀ r ∈ rows, r.2 ∈ ls) :
    (∀ anyRows, load_dataset none anyRows
        = Except.error "You need to provide the list of labels for the dataset")
    ∧ (∀ anyRows, load_dataset (some []) anyRows
        = Except.error "You need to provide the list of labels for the dataset")
    ∧ load_dataset (some ls) (some rows)
        = Except.ok (rows.map (fun r => (r.1, ls.indexOf r.2))) := by
  refine ⟨fun _ => rfl, fun _ => rfl, ?_⟩
  rw [load_dataset]
  rw [if_neg (by simpa [List.isEmpty_iff] using hls)]
  exact load_rows_ok ls rows hrows

/-- Witness for C10: labels `["a", "b"]`, two CSV rows; the row with
label "b" maps to index 1 and the row with label "a" to index 0. -/
theorem load_dataset_label_indices_witness :
    (∀ anyRows, load_dataset none anyRows
        = Except.error "You need to provide the list of labels for the dataset")
    ∧ (∀ anyRows, load_dataset (some []) anyRows
        = Except.error "You need to provide the list of labels for the dataset")
    ∧ load_dataset (some ["a", "b"]) (some [("p", "b"), ("q", "a")])
        = Except.ok ([("p", "b"), ("q", "a")].map
            (fun r => (r.1, ["a", "b"].indexOf r.2))) :=
  load_dataset_label_indices ["a", "b"] [("p", "b"), ("q", "a")]
    (by decide) (by decide)

end Aitlas
